import Mathlib

/-!
Verification of the `simple_tickets` front-end auth/CRUD client.

The development shallowly embeds the two source files:

* `frontend/static/js/auth.js` — the fetch wrapper `apiRequest` with the
  401 / token-refresh / redirect logic, the cookie readers, the admin CRUD
  helpers (`loadAdmins`, `displayAdmins`, `deleteAdmin`, `getAdmin`) and
  the client counterparts (`loadClients`, `displayClients`, `deleteClient`,
  `getClient`).
* the shell script exercising the token flow — we embed its `logout`
  function (token clearing on `POST /logout`).

Side effects (HTTP requests issued, `window.location.href` assignments,
notifications, table renders) are modelled as an explicit event trace in
chronological order.  Network behaviour is an input: each call site that may
`fetch` is given the outcome (network error, or an HTTP response with a
status) the external server would produce.  JSON bodies the server returns
are likewise passed in already parsed, with `Option` modelling JS
`null`/`undefined`.
-/

namespace SimpleTickets

/-- `const API_BASE_URL = 'http://127.0.0.1:8000';` (auth.js line 2). -/
def API_BASE_URL : String := "http://127.0.0.1:8000"

/-- JS truthiness for a possibly-absent string: `undefined`/`null` (here
`none`) and the empty string are falsy; every other string is truthy. -/
def jsTruthy : Option String → Bool
  | none => false
  | some s => s != ""

/-- JS `String.prototype.split(sep)` over the character list of a string:
splitting the empty string yields one empty group, and every separator
starts a new group.  (Structural recursion, so concrete cookie strings
evaluate inside proofs.) -/
def splitOnChar (sep : Char) : List Char → List (List Char)
  | [] => [[]]
  | c :: cs =>
    match splitOnChar sep cs with
    | [] => if c == sep then [[], []] else [[c]]
    | g :: gs => if c == sep then [] :: g :: gs else (c :: g) :: gs

/-- Whitespace removed by JS `trim` (the cookies here only ever carry the
space after `;`). -/
def isWhitespaceChar (c : Char) : Bool :=
  c == ' ' || c == '\t' || c == '\n' || c == '\r'

/-- JS `String.prototype.trim()`: strip leading and trailing whitespace. -/
def trimChars (cs : List Char) : List Char :=
  ((cs.dropWhile isWhitespaceChar).reverse.dropWhile isWhitespaceChar).reverse

/-- The name part of one `document.cookie` entry:
`cookie.trim().split('=')[0]`. -/
def cookiePairName (c : List Char) : List Char :=
  (splitOnChar '=' (trimChars c)).headD []

/-- The value part of one `document.cookie` entry:
`cookie.trim().split('=')[1]`, `none` when the entry has no `=`
(JS would yield `undefined`). -/
def cookiePairValue (c : List Char) : Option (List Char) :=
  (splitOnChar '=' (trimChars c))[1]?

/-- The cookie-scanning loop shared by `getAccessToken` and
`getRefreshToken`: split `document.cookie` on `;`, return the value of the
first entry whose name matches, and `none` (JS `null`) when none does. -/
def getCookieValue (cookieString cookieName : String) : Option String :=
  match (splitOnChar ';' cookieString.data).find?
      (fun c => cookiePairName c == cookieName.data) with
  | some c => (cookiePairValue c).map String.mk
  | none => none

/-- `getAccessToken()` (auth.js lines 5-14), as a function of the ambient
`document.cookie` string. -/
def getAccessToken (cookieString : String) : Option String :=
  getCookieValue cookieString "access_token"

/-- `getRefreshToken()` (auth.js lines 75-84). -/
def getRefreshToken (cookieString : String) : Option String :=
  getCookieValue cookieString "refresh_token"

/-- A request body.  The callers in this repository send either no body,
the refresh payload `JSON.stringify(\x7b refresh_token \x7d)`, or an opaque
JSON-encoded record; the structured constructors keep those apart without
re-encoding JSON text. -/
inductive ReqBody where
  | empty
  | jsonRefreshToken (tok : String)
  | jsonRaw (s : String)
deriving Repr, DecidableEq

/-- One HTTP request as issued by `fetch`/`curl`: method, full URL, the
bearer token attached via the `Authorization` header (if any), and the
body.  (The `Content-Type: application/json` header is always set by the
wrapper and carries no information, so it is not recorded.) -/
structure HttpRequest where
  method : String
  url : String
  bearer : Option String
  body : ReqBody
deriving Repr, DecidableEq

/-- An HTTP response as seen by the JS code; only the status is inspected
by `apiRequest` (response bodies are modelled separately at each caller). -/
structure JsResponse where
  status : Nat
deriving Repr, DecidableEq

/-- `Response.ok`: status in the range 200-299. -/
def JsResponse.ok (r : JsResponse) : Bool :=
  decide (200 ≤ r.status ∧ r.status < 300)

/-- The outcome of one `fetch`: either the promise rejects (network-level
failure, the request never completes) or a response arrives. -/
inductive FetchOutcome where
  | networkError
  | response (r : JsResponse)
deriving Repr, DecidableEq

/-- The network behaviour an `apiRequest` call runs against: the outcome of
the primary `fetch` and the outcome of the `POST /refresh` fetch (the
latter is consulted only when the refresh path is taken). -/
structure Net where
  primary : FetchOutcome
  refresh : FetchOutcome
deriving Repr, DecidableEq

/-- A record of the run of a JS record: either an exception escaped
(`thrown`), or a value was returned. -/
inductive JsOutcome (α : Type) where
  | thrown
  | value (v : α)
deriving Repr, DecidableEq

/-- `!admins || admins.length === 0` renders the empty-state placeholder;
otherwise one row per item, in order. -/
inductive Rendered (Row : Type) where
  | emptyState
  | rows (rs : List Row)
deriving Repr, DecidableEq

/-- An `/admins/` record as consumed by the renderer (fields read by
`displayAdmins`). -/
structure Admin where
  admin_id : Nat
  name : String
  email : String
  enabled : Bool
  date_created : String
deriving Repr, DecidableEq

/-- One rendered row of the admins table: the display columns and the
edit/delete controls `displayAdmins` emits for one admin. -/
structure AdminRow where
  admin_id : Nat
  name : String
  email : String
  badgeClass : String
  badgeText : String
  dateText : String
  editHref : String
  deleteTargetId : Nat
deriving Repr, DecidableEq

/-- A `/clients/` record as consumed by the renderer (fields read by
`displayClients`).  `phones` and `admin_id` may be JS-falsy, which the
renderer replaces with `-`. -/
structure Client where
  client_id : Nat
  name : String
  email : String
  phones : Option String
  enabled : Bool
  is_deleted : Bool
  admin_id : Option Nat
  date_created : String
deriving Repr, DecidableEq

/-- One rendered row of the clients table. -/
structure ClientRow where
  client_id : Nat
  name : String
  deletedBadge : Bool
  email : String
  phonesText : String
  badgeClass : String
  badgeText : String
  adminIdText : String
  dateText : String
  editHref : String
  deleteTargetId : Nat
deriving Repr, DecidableEq

/-- One observable side effect, in chronological order: an HTTP request
issued, an assignment to `window.location.href`, a `showNotification`
call (message, bootstrap level), or a table body render. -/
inductive Event where
  | request (r : HttpRequest)
  | redirect (url : String)
  | notify (message level : String)
  | renderAdminsTable (t : Rendered AdminRow)
  | renderClientsTable (t : Rendered ClientRow)
deriving Repr, DecidableEq

/-- Whether an event is an assignment to `window.location.href`. -/
def Event.isRedirect : Event → Bool
  | .redirect _ => true
  | _ => false

/-- Whether an event is an HTTP request. -/
def Event.isRequest : Event → Bool
  | .request _ => true
  | _ => false

/-- The `options` argument of `apiRequest` as used in this repository:
callers pass at most `method`, `body` and `public` (none passes custom
headers, so header merging is not modelled).  Defaults mirror a missing
field: `fetch` defaults the method to GET, no body, `options.public`
undefined (falsy). -/
structure ApiOptions where
  method : String := "GET"
  body : ReqBody := .empty
  public : Bool := false
deriving Repr, DecidableEq

/-- The request assembled by the primary `fetch` of `apiRequest`
(auth.js lines 24-41): the caller's method and body, the endpoint appended
to `API_BASE_URL`, and an `Authorization: Bearer` header exactly when the
access token is truthy. -/
def primaryRequest (cookieString endpoint : String) (options : ApiOptions) : HttpRequest :=
  { method := options.method
    url := API_BASE_URL ++ endpoint
    bearer :=
      if jsTruthy (getAccessToken cookieString) then getAccessToken cookieString
      else none
    body := options.body }

/-- The refresh request of `apiRequest` (auth.js lines 49-53):
`POST /refresh` with no bearer header and the refresh-token JSON body. -/
def refreshRequest (cookieString : String) : HttpRequest :=
  { method := "POST"
    url := API_BASE_URL ++ "/refresh"
    bearer := none
    body := .jsonRefreshToken ((getRefreshToken cookieString).getD "") }

/-- `apiRequest(endpoint, options)` (auth.js lines 17-72).

* No access token and not `public` → set `window.location.href = '/login'`
  and `return;` (the caller receives `undefined`, modelled `value none`).
* Otherwise `fetch` the endpoint with a bearer header when the token is
  truthy.  This `await fetch` is NOT inside any try/catch: a network error
  rejects the promise and the exception propagates out of `apiRequest`
  (`thrown`).
* On a 401 for a non-`public` call: with a truthy refresh token, one
  `POST /refresh` is issued inside a try/catch; every branch (refresh ok —
  the code parses the tokens but then, per its own comment, redirects "for
  now" — refresh not ok, or refresh network error) assigns
  `window.location.href = '/login'`.  With no refresh token the redirect
  happens without any refresh call.  Either way execution falls through to
  `return response`, so the caller receives the original 401 response. -/
def apiRequest (cookieString : String) (net : Net) (endpoint : String)
    (options : ApiOptions) : JsOutcome (Option JsResponse) × List Event :=
  let token := getAccessToken cookieString
  if !jsTruthy token && !options.public then
    (.value none, [.redirect "/login"])
  else
    let req : HttpRequest := primaryRequest cookieString endpoint options
    match net.primary with
    | .networkError => (.thrown, [.request req])
    | .response response =>
      if response.status == 401 && !options.public then
        let refreshToken := getRefreshToken cookieString
        if jsTruthy refreshToken then
          let refreshReq : HttpRequest := refreshRequest cookieString
          match net.refresh with
          | .networkError =>
            (.value (some response), [.request req, .request refreshReq, .redirect "/login"])
          | .response refreshResponse =>
            if refreshResponse.ok then
              (.value (some response), [.request req, .request refreshReq, .redirect "/login"])
            else
              (.value (some response), [.request req, .request refreshReq, .redirect "/login"])
        else
          (.value (some response), [.request req, .redirect "/login"])
      else
        (.value (some response), [.request req])

/-- `formatDate` calls `Date`, `toLocaleDateString` and
`toLocaleTimeString`, whose output depends on the host browser's locale;
the formatter is therefore a parameter of the renderers rather than a
definition (any function of the raw timestamp string). -/
abbrev DateFmt := String → String

/-- The row template of `displayAdmins` (auth.js lines 187-211) applied to
one admin: id, name (bold), email, enabled badge (`bg-success`/`Active`
when truthy, `bg-danger`/`Inactive` otherwise), formatted creation date,
and the per-row edit link and delete button. -/
def adminRow (fmt : DateFmt) (a : Admin) : AdminRow :=
  { admin_id := a.admin_id
    name := a.name
    email := a.email
    badgeClass := if a.enabled then "bg-success" else "bg-danger"
    badgeText := if a.enabled then "Active" else "Inactive"
    dateText := fmt a.date_created
    editHref := "/admins/edit/" ++ toString a.admin_id
    deleteTargetId := a.admin_id }

/-- `displayAdmins(admins)` (auth.js lines 172-212).  `none` models a
falsy `admins` argument (`null`/`undefined` JSON body). -/
def displayAdmins (fmt : DateFmt) (admins : Option (List Admin)) : Rendered AdminRow :=
  match admins with
  | none => .emptyState
  | some l =>
    if l.length == 0 then .emptyState
    else .rows (l.map (adminRow fmt))

/-- The row template of `displayClients` (part_000 lines 391-418) applied
to one client.  `client.phones || '-'` and `client.admin_id || '-'` use JS
truthiness: an absent or empty phones string, and an absent or zero
admin id, render as `-`. -/
def clientRow (fmt : DateFmt) (c : Client) : ClientRow :=
  { client_id := c.client_id
    name := c.name
    deletedBadge := c.is_deleted
    email := c.email
    phonesText := match c.phones with
      | none => "-"
      | some p => if p == "" then "-" else p
    badgeClass := if c.enabled then "bg-success" else "bg-danger"
    badgeText := if c.enabled then "Active" else "Inactive"
    adminIdText := match c.admin_id with
      | none => "-"
      | some n => if n == 0 then "-" else toString n
    dateText := fmt c.date_created
    editHref := "/clients/edit/" ++ toString c.client_id
    deleteTargetId := c.client_id }

/-- `displayClients(clients)` (part_000 lines 376-419). -/
def displayClients (fmt : DateFmt) (clients : Option (List Client)) : Rendered ClientRow :=
  match clients with
  | none => .emptyState
  | some l =>
    if l.length == 0 then .emptyState
    else .rows (l.map (clientRow fmt))

/-- `loadAdmins()` (auth.js lines 156-169).  `adminsBody` is the parsed
JSON the server would return for `GET /admins/`.  When `apiRequest`
returns `undefined` (no-token redirect path), reading `response.ok` throws
a TypeError, which the surrounding try/catch converts into the
`'Network error'` notification — the same handler as a thrown fetch. -/
def loadAdmins (fmt : DateFmt) (cookieString : String) (net : Net)
    (adminsBody : Option (List Admin)) : List Event :=
  match apiRequest cookieString net "/admins/" {} with
  | (.thrown, tr) => tr ++ [.notify "Network error" "danger"]
  | (.value none, tr) => tr ++ [.notify "Network error" "danger"]
  | (.value (some response), tr) =>
    if response.ok then
      tr ++ [.renderAdminsTable (displayAdmins fmt adminsBody)]
    else
      tr ++ [.notify "Failed to load admins" "danger"]

/-- `loadClients()` (part_000 lines 360-373). -/
def loadClients (fmt : DateFmt) (cookieString : String) (net : Net)
    (clientsBody : Option (List Client)) : List Event :=
  match apiRequest cookieString net "/clients/" {} with
  | (.thrown, tr) => tr ++ [.notify "Network error" "danger"]
  | (.value none, tr) => tr ++ [.notify "Network error" "danger"]
  | (.value (some response), tr) =>
    if response.ok then
      tr ++ [.renderClientsTable (displayClients fmt clientsBody)]
    else
      tr ++ [.notify "Failed to load clients" "danger"]

/-- `getAdmin(adminId)` (auth.js lines 257-263).  No try/catch here:
a thrown fetch, or the TypeError from `response.ok` when `apiRequest`
returned `undefined`, propagates to getAdmin's caller.  `adminBody` is the
parsed JSON body on a 2xx response. -/
def getAdmin (cookieString : String) (net : Net) (adminBody : Option Admin)
    (adminId : Nat) : JsOutcome (Option Admin) × List Event :=
  match apiRequest cookieString net ("/admins/" ++ toString adminId) {} with
  | (.thrown, tr) => (.thrown, tr)
  | (.value none, tr) => (.thrown, tr)
  | (.value (some response), tr) =>
    if response.ok then (.value adminBody, tr) else (.value none, tr)

/-- `getClient(clientId)` (part_000 lines 464-470). -/
def getClient (cookieString : String) (net : Net) (clientBody : Option Client)
    (clientId : Nat) : JsOutcome (Option Client) × List Event :=
  match apiRequest cookieString net ("/clients/" ++ toString clientId) {} with
  | (.thrown, tr) => (.thrown, tr)
  | (.value none, tr) => (.thrown, tr)
  | (.value (some response), tr) =>
    if response.ok then (.value clientBody, tr) else (.value none, tr)

/-- `deleteAdmin(adminId)` (auth.js lines 231-254).  `confirmed` is the
boolean the `confirmDialog` promise resolves with; on `false` the function
returns before anything else happens.  On success the fire-and-forget
`loadAdmins()` reload runs against `reloadNet`/`reloadBody`. -/
def deleteAdmin (confirmed : Bool) (fmt : DateFmt) (cookieString : String)
    (net reloadNet : Net) (reloadBody : Option (List Admin))
    (adminId : Nat) : List Event :=
  if !confirmed then []
  else
    match apiRequest cookieString net ("/admins/" ++ toString adminId)
        { method := "DELETE" } with
    | (.thrown, tr) => tr ++ [.notify "Network error" "danger"]
    | (.value none, tr) => tr ++ [.notify "Network error" "danger"]
    | (.value (some response), tr) =>
      if response.ok then
        tr ++ [.notify "Admin deleted successfully" "success"]
          ++ loadAdmins fmt cookieString reloadNet reloadBody
      else
        tr ++ [.notify "Failed to delete admin" "danger"]

/-- `deleteClient(clientId)` (part_000 lines 438-461). -/
def deleteClient (confirmed : Bool) (fmt : DateFmt) (cookieString : String)
    (net reloadNet : Net) (reloadBody : Option (List Client))
    (clientId : Nat) : List Event :=
  if !confirmed then []
  else
    match apiRequest cookieString net ("/clients/" ++ toString clientId)
        { method := "DELETE" } with
    | (.thrown, tr) => tr ++ [.notify "Network error" "danger"]
    | (.value none, tr) => tr ++ [.notify "Network error" "danger"]
    | (.value (some response), tr) =>
      if response.ok then
        tr ++ [.notify "Client deleted successfully" "success"]
          ++ loadClients fmt cookieString reloadNet reloadBody
      else
        tr ++ [.notify "Failed to delete client" "danger"]

/-- The shell script's token variables (`ACCESS_TOKEN`, `REFRESH_TOKEN`);
shell emptiness (`[ -z ... ]`) is the empty string. -/
structure ShellTokens where
  ACCESS_TOKEN : String
  REFRESH_TOKEN : String
deriving Repr, DecidableEq

/-- How the shell `logout` run ended: early exit for a missing refresh
token (`return 1`), success print on HTTP 200, or the
"Logout failed, but clearing local tokens anyway" branch. -/
inductive LogoutResult where
  | noRefreshToken
  | success
  | failedButCleared
deriving Repr, DecidableEq

/-- `API_BASE` of the shell script (part_000 line 4). -/
def API_BASE_sh : String := "http://localhost:8000"

/-- The `curl` request `logout` issues when a refresh token is present:
`POST /logout` with the access token as bearer and the refresh token in
the JSON body (part_000 lines 167-171). -/
def logoutRequest (st : ShellTokens) : Option HttpRequest :=
  if st.REFRESH_TOKEN == "" then none
  else some
    { method := "POST"
      url := API_BASE_sh ++ "/logout"
      bearer := some st.ACCESS_TOKEN
      body := .jsonRefreshToken st.REFRESH_TOKEN }

/-- `logout()` (part_000 lines 159-188) as a function of the token state
and the HTTP status `curl` reports.  With no refresh token it returns 1
without touching the variables; otherwise both branches of the status test
clear `ACCESS_TOKEN` and `REFRESH_TOKEN`. -/
def logout (st : ShellTokens) (status_code : Nat) : ShellTokens × LogoutResult :=
  if st.REFRESH_TOKEN == "" then (st, .noRefreshToken)
  else if status_code == 200 then
    ({ ACCESS_TOKEN := "", REFRESH_TOKEN := "" }, .success)
  else
    ({ ACCESS_TOKEN := "", REFRESH_TOKEN := "" }, .failedButCleared)

/-- The admin record shaped like the spec's rendering scenario (one item,
enabled), used as a concrete sample input for the renderer. -/
def sampleAdmin : Admin :=
  { admin_id := 1
    name := "Acme"
    email := "a@x.com"
    enabled := true
    date_created := "2024-01-01T00:00:00Z" }

/-! ### Helper lemmas about `apiRequest` -/

/-- With no (truthy) access token and a non-public call, `apiRequest`
redirects at once, issues nothing, and returns `undefined`. -/
theorem apiRequest_noToken (cookieString endpoint : String) (net : Net)
    (options : ApiOptions) (hpub : options.public = false)
    (htok : jsTruthy (getAccessToken cookieString) = false) :
    apiRequest cookieString net endpoint options =
      (.value none, [.redirect "/login"]) := by
  simp [apiRequest, htok, hpub]

/-- With an access token but a network error on the primary fetch, the
exception escapes `apiRequest` after the single request; in particular no
redirect happens. -/
theorem apiRequest_primaryNetworkError (cookieString endpoint : String)
    (net : Net) (options : ApiOptions)
    (htok : jsTruthy (getAccessToken cookieString) = true)
    (hnet : net.primary = FetchOutcome.networkError) :
    apiRequest cookieString net endpoint options =
      (.thrown, [.request (primaryRequest cookieString endpoint options)]) := by
  obtain ⟨p, rf⟩ := net
  simp only at hnet
  subst hnet
  simp [apiRequest, htok]

/-- On a 401 for a non-public call with a truthy refresh token, the trace
is exactly: primary request, one refresh request, one redirect — whatever
the refresh fetch produced — and the original 401 response is returned. -/
theorem apiRequest_401_withRefreshToken (cookieString endpoint : String)
    (net : Net) (options : ApiOptions) (r : JsResponse)
    (hpub : options.public = false)
    (htok : jsTruthy (getAccessToken cookieString) = true)
    (hresp : net.primary = FetchOutcome.response r)
    (h401 : r.status = 401)
    (href : jsTruthy (getRefreshToken cookieString) = true) :
    apiRequest cookieString net endpoint options =
      (.value (some r),
       [.request (primaryRequest cookieString endpoint options),
        .request (refreshRequest cookieString),
        .redirect "/login"]) := by
  obtain ⟨p, rf⟩ := net
  simp only at hresp
  subst hresp
  cases rf <;> simp [apiRequest, htok, hpub, h401, href]

/-- On a 401 for a non-public call with no truthy refresh token, the trace
is the primary request followed by the redirect, and the original 401
response is returned. -/
theorem apiRequest_401_noRefreshToken (cookieString endpoint : String)
    (net : Net) (options : ApiOptions) (r : JsResponse)
    (hpub : options.public = false)
    (htok : jsTruthy (getAccessToken cookieString) = true)
    (hresp : net.primary = FetchOutcome.response r)
    (h401 : r.status = 401)
    (href : jsTruthy (getRefreshToken cookieString) = false) :
    apiRequest cookieString net endpoint options =
      (.value (some r),
       [.request (primaryRequest cookieString endpoint options),
        .redirect "/login"]) := by
  obtain ⟨p, rf⟩ := net
  simp only at hresp
  subst hresp
  simp [apiRequest, htok, hpub, h401, href]

/-! ### Claim theorems -/

/-- Claim C1.  The intended contract from the spec: after a 401 with an
available refresh token and a successful `POST /refresh`, retry the
original request with the new access token and return that outcome.  The
code does not do this: at the failing input below (valid cookie tokens,
primary response 401, refresh response 200 OK) `apiRequest` issues no
third request, redirects to `/login` despite the successful refresh, and
returns the original 401 response.  The code's own comment ("Update
cookies ... For now, redirect to login") marks the retry as unimplemented,
so this is a defect of the code, not of the claim. -/
theorem apiRequest_successful_refresh_discards_token :
    apiRequest "access_token=AT; refresh_token=RT"
      { primary := .response ⟨401⟩, refresh := .response ⟨200⟩ } "/users/me" {} =
      (.value (some ⟨401⟩),
       [.request (primaryRequest "access_token=AT; refresh_token=RT" "/users/me" {}),
        .request (refreshRequest "access_token=AT; refresh_token=RT"),
        .redirect "/login"]) := by decide

/-- Claim C2.  For a non-public call whose primary response is 401 and
whose cookies hold a truthy refresh token, the trace is exactly the
primary request, then one `POST /refresh` with body `\x7b refresh_token \x7d`,
then one redirect: the single refresh call precedes the redirect decision
and no second refresh attempt exists, whatever the refresh fetch
returns. -/
theorem apiRequest_one_refresh_before_redirect (cookieString endpoint : String)
    (net : Net) (options : ApiOptions) (r : JsResponse)
    (hpub : options.public = false)
    (htok : jsTruthy (getAccessToken cookieString) = true)
    (hresp : net.primary = FetchOutcome.response r)
    (h401 : r.status = 401)
    (href : jsTruthy (getRefreshToken cookieString) = true) :
    (apiRequest cookieString net endpoint options).2 =
      [.request (primaryRequest cookieString endpoint options),
       .request (refreshRequest cookieString),
       .redirect "/login"] := by
  rw [apiRequest_401_withRefreshToken cookieString endpoint net options r
    hpub htok hresp h401 href]

/-- Witness for C2 at a concrete input: both cookies set, primary response
401, refresh fetch itself failing at the network level. -/
theorem apiRequest_one_refresh_before_redirect_witness :
    (apiRequest "access_token=AT; refresh_token=RT"
      { primary := .response ⟨401⟩, refresh := .networkError } "/users/me" {}).2 =
      [.request (primaryRequest "access_token=AT; refresh_token=RT" "/users/me" {}),
       .request (refreshRequest "access_token=AT; refresh_token=RT"),
       .redirect "/login"] :=
  apiRequest_one_refresh_before_redirect "access_token=AT; refresh_token=RT"
    "/users/me" _ {} ⟨401⟩ rfl (by decide) rfl rfl (by decide)

/-- Claim C3.  A non-public call with no truthy access token issues no
HTTP request at all: the event trace is exactly one immediate redirect to
`/login` (and the caller receives `undefined`). -/
theorem apiRequest_no_token_redirects_immediately (cookieString endpoint : String)
    (net : Net) (options : ApiOptions)
    (hpub : options.public = false)
    (htok : jsTruthy (getAccessToken cookieString) = false) :
    apiRequest cookieString net endpoint options =
      (.value none, [.redirect "/login"]) :=
  apiRequest_noToken cookieString endpoint net options hpub htok

/-- Witness for C3: cookies holding only a refresh token, against a server
that would answer 200 — still no request, only the redirect. -/
theorem apiRequest_no_token_redirects_immediately_witness :
    apiRequest "refresh_token=RT" { primary := .response ⟨200⟩, refresh := .response ⟨200⟩ }
      "/admins/" {} = (.value none, [.redirect "/login"]) :=
  apiRequest_no_token_redirects_immediately "refresh_token=RT" "/admins/" _ {}
    rfl (by decide)

/-- Claim C4.  A `public: true` call never redirects: whatever the cookie
state and whatever the primary fetch produces (any status, including 401,
or a network error), the trace contains no redirect event. -/
theorem apiRequest_public_never_redirects (cookieString endpoint : String)
    (net : Net) (options : ApiOptions) (hpub : options.public = true) :
    (apiRequest cookieString net endpoint options).2.filter Event.isRedirect = [] := by
  obtain ⟨p, rf⟩ := net
  cases p <;> simp [apiRequest, hpub, Event.isRedirect]

/-- Witness for C4: no token at all and a 401 response — still no
redirect event. -/
theorem apiRequest_public_never_redirects_witness :
    (apiRequest "" { primary := .response ⟨401⟩, refresh := .response ⟨200⟩ }
      "/token" { method := "POST", body := .jsonRaw "credentials", public := true }).2.filter
      Event.isRedirect = [] :=
  apiRequest_public_never_redirects "" "/token" _
    { method := "POST", body := .jsonRaw "credentials", public := true } rfl

/-- Claim C5, counterexample.  The claim says a network-level failure
during the primary call is caught inside `apiRequest` and turned into a
redirect.  At this concrete input (both cookie tokens present, non-public
call, primary fetch fails at the network level) `apiRequest` instead lets
the exception propagate (`thrown`) and its trace contains no redirect
event — the primary `await fetch` sits outside every try/catch. -/
theorem apiRequest_primary_network_error_not_caught :
    apiRequest "access_token=AT; refresh_token=RT"
      { primary := .networkError, refresh := .networkError } "/admins/" {} =
      (.thrown,
       [.request (primaryRequest "access_token=AT; refresh_token=RT" "/admins/" {})]) ∧
    (apiRequest "access_token=AT; refresh_token=RT"
      { primary := .networkError, refresh := .networkError } "/admins/" {}).2.filter
      Event.isRedirect = [] := by decide

/-- Claim C5 as amended.  For a non-public call: a network failure during
the refresh call is caught inside `apiRequest` and treated like an
authorization failure — redirect to `/login`, original 401 returned — but
a network failure during the primary call is not caught there: the
exception propagates to the caller and no redirect occurs. -/
theorem apiRequest_network_failure_handling :
    (∀ (cookieString endpoint : String) (net : Net) (options : ApiOptions)
        (r : JsResponse),
      options.public = false →
      jsTruthy (getAccessToken cookieString) = true →
      net.primary = FetchOutcome.response r →
      r.status = 401 →
      jsTruthy (getRefreshToken cookieString) = true →
      net.refresh = FetchOutcome.networkError →
      apiRequest cookieString net endpoint options =
        (.value (some r),
         [.request (primaryRequest cookieString endpoint options),
          .request (refreshRequest cookieString),
          .redirect "/login"])) ∧
    (∀ (cookieString endpoint : String) (net : Net) (options : ApiOptions),
      options.public = false →
      jsTruthy (getAccessToken cookieString) = true →
      net.primary = FetchOutcome.networkError →
      apiRequest cookieString net endpoint options =
        (.thrown, [.request (primaryRequest cookieString endpoint options)]) ∧
      (apiRequest cookieString net endpoint options).2.filter Event.isRedirect = []) := by
  constructor
  · intro cookieString endpoint net options r hpub htok hresp h401 href _
    exact apiRequest_401_withRefreshToken cookieString endpoint net options r
      hpub htok hresp h401 href
  · intro cookieString endpoint net options _ htok hnet
    have h := apiRequest_primaryNetworkError cookieString endpoint net options htok hnet
    refine ⟨h, ?_⟩
    rw [h]
    simp [Event.isRedirect]

/-- Witness for the amended C5, both halves at concrete inputs: a refresh
network error redirects and returns the original 401; a primary network
error propagates with no redirect. -/
theorem apiRequest_network_failure_handling_witness :
    apiRequest "access_token=AT; refresh_token=RT"
      { primary := .response ⟨401⟩, refresh := .networkError } "/users/me" {} =
      (.value (some ⟨401⟩),
       [.request (primaryRequest "access_token=AT; refresh_token=RT" "/users/me" {}),
        .request (refreshRequest "access_token=AT; refresh_token=RT"),
        .redirect "/login"]) ∧
    apiRequest "access_token=AT; refresh_token=RT"
      { primary := .networkError, refresh := .networkError } "/users/me" {} =
      (.thrown,
       [.request (primaryRequest "access_token=AT; refresh_token=RT" "/users/me" {})]) :=
  ⟨apiRequest_network_failure_handling.1 "access_token=AT; refresh_token=RT"
      "/users/me" _ {} ⟨401⟩ rfl (by decide) rfl rfl (by decide) rfl,
   (apiRequest_network_failure_handling.2 "access_token=AT; refresh_token=RT"
      "/users/me" _ {} rfl (by decide) rfl).1⟩

/-- Claim C10.  Whenever a non-public call gets a 401 primary response —
whether the refresh token is missing, or the refresh call succeeds, fails
with a non-ok status, or dies on the network — `apiRequest` returns the
original 401 response object (never the refresh response, never a retried
request's response, since no retry exists) and the trace carries the
`/login` redirect. -/
theorem apiRequest_401_returns_original_response (cookieString endpoint : String)
    (net : Net) (options : ApiOptions) (r : JsResponse)
    (hpub : options.public = false)
    (htok : jsTruthy (getAccessToken cookieString) = true)
    (hresp : net.primary = FetchOutcome.response r)
    (h401 : r.status = 401) :
    (apiRequest cookieString net endpoint options).1 = .value (some r) ∧
    Event.redirect "/login" ∈ (apiRequest cookieString net endpoint options).2 := by
  cases href : jsTruthy (getRefreshToken cookieString) with
  | true =>
    rw [apiRequest_401_withRefreshToken cookieString endpoint net options r
      hpub htok hresp h401 href]
    simp
  | false =>
    rw [apiRequest_401_noRefreshToken cookieString endpoint net options r
      hpub htok hresp h401 href]
    simp

/-- Witness for C10: access token but no refresh token, 401 primary
response. -/
theorem apiRequest_401_returns_original_response_witness :
    (apiRequest "access_token=AT" { primary := .response ⟨401⟩, refresh := .response ⟨200⟩ }
      "/clients/" {}).1 = .value (some ⟨401⟩) ∧
    Event.redirect "/login" ∈
      (apiRequest "access_token=AT" { primary := .response ⟨401⟩, refresh := .response ⟨200⟩ }
        "/clients/" {}).2 :=
  apiRequest_401_returns_original_response "access_token=AT" "/clients/" _ {} ⟨401⟩
    rfl (by decide) rfl rfl

/-- Claim C6.  `deleteAdmin`/`deleteClient` issue their DELETE only after
an affirmative confirmation: when the dialog resolves `false` the
functions return with an empty event trace (zero HTTP calls, no
notification, no render), and any event at all in a run's trace forces
`confirmed = true`. -/
theorem delete_requires_confirmation (fmt : DateFmt) (cookieString : String)
    (net reloadNet : Net) (adminsBody : Option (List Admin))
    (clientsBody : Option (List Client)) (adminId clientId : Nat) :
    deleteAdmin false fmt cookieString net reloadNet adminsBody adminId = [] ∧
    deleteClient false fmt cookieString net reloadNet clientsBody clientId = [] ∧
    (∀ (confirmed : Bool) (e : Event),
      e ∈ deleteAdmin confirmed fmt cookieString net reloadNet adminsBody adminId →
      confirmed = true) ∧
    (∀ (confirmed : Bool) (e : Event),
      e ∈ deleteClient confirmed fmt cookieString net reloadNet clientsBody clientId →
      confirmed = true) := by
  refine ⟨rfl, rfl, ?_, ?_⟩ <;>
  · intro confirmed e he
    cases confirmed with
    | true => rfl
    | false => simp [deleteAdmin, deleteClient] at he

/-- Witness for C6: cancelled deletes at concrete inputs produce no event,
and a concrete event in a confirmed run applies the only-if direction. -/
theorem delete_requires_confirmation_witness :
    deleteAdmin false id "access_token=AT"
      { primary := .response ⟨200⟩, refresh := .response ⟨200⟩ }
      { primary := .response ⟨200⟩, refresh := .response ⟨200⟩ } (some []) 1 = [] ∧
    deleteClient false id "access_token=AT"
      { primary := .response ⟨200⟩, refresh := .response ⟨200⟩ }
      { primary := .response ⟨200⟩, refresh := .response ⟨200⟩ } (some []) 2 = [] ∧
    true = true :=
  ⟨(delete_requires_confirmation id "access_token=AT" _ _ (some []) (some []) 1 2).1,
   (delete_requires_confirmation id "access_token=AT" _ _ (some []) (some []) 1 2).2.1,
   (delete_requires_confirmation id "access_token=AT"
      { primary := .response ⟨200⟩, refresh := .response ⟨200⟩ }
      { primary := .response ⟨200⟩, refresh := .response ⟨200⟩ }
      (some []) (some []) 1 2).2.2.1 true
      (.request (primaryRequest "access_token=AT" "/admins/1" { method := "DELETE" }))
      (by decide)⟩

/-- Claim C7.  The renderers: a missing (`null`) or empty collection
yields only the empty-state placeholder and never a data row; a collection
of N items yields exactly N rows in order, each row carrying the item's
fields, the edit link and delete target, and an `Active` badge exactly
when `enabled` is true (`Inactive` otherwise). -/
theorem display_render_contract (fmt : DateFmt) :
    displayAdmins fmt none = .emptyState ∧
    displayAdmins fmt (some []) = .emptyState ∧
    displayClients fmt none = .emptyState ∧
    displayClients fmt (some []) = .emptyState ∧
    (∀ l : List Admin, l ≠ [] →
      displayAdmins fmt (some l) = .rows (l.map (adminRow fmt)) ∧
      (l.map (adminRow fmt)).length = l.length) ∧
    (∀ l : List Client, l ≠ [] →
      displayClients fmt (some l) = .rows (l.map (clientRow fmt)) ∧
      (l.map (clientRow fmt)).length = l.length) ∧
    (∀ a : Admin,
      (adminRow fmt a).name = a.name ∧
      (adminRow fmt a).email = a.email ∧
      (adminRow fmt a).dateText = fmt a.date_created ∧
      (adminRow fmt a).editHref = "/admins/edit/" ++ toString a.admin_id ∧
      (adminRow fmt a).deleteTargetId = a.admin_id ∧
      ((adminRow fmt a).badgeText = "Active" ↔ a.enabled = true) ∧
      ((adminRow fmt a).badgeText = "Inactive" ↔ a.enabled = false)) ∧
    (∀ c : Client,
      (clientRow fmt c).name = c.name ∧
      (clientRow fmt c).email = c.email ∧
      (clientRow fmt c).dateText = fmt c.date_created ∧
      (clientRow fmt c).editHref = "/clients/edit/" ++ toString c.client_id ∧
      (clientRow fmt c).deleteTargetId = c.client_id ∧
      ((clientRow fmt c).badgeText = "Active" ↔ c.enabled = true) ∧
      ((clientRow fmt c).badgeText = "Inactive" ↔ c.enabled = false)) := by
  refine ⟨rfl, rfl, rfl, rfl, ?_, ?_, ?_, ?_⟩
  · intro l hl
    have hlen : l.length ≠ 0 := by simpa [List.length_eq_zero] using hl
    constructor
    · simp [displayAdmins, hlen]
    · simp
  · intro l hl
    have hlen : l.length ≠ 0 := by simpa [List.length_eq_zero] using hl
    constructor
    · simp [displayClients, hlen]
    · simp
  · intro a
    cases h : a.enabled <;> simp [adminRow, h]
  · intro c
    cases h : c.enabled <;> simp [clientRow, h]

/-- Witness for C7: the contract instantiated at the identity formatter
and a one-element admin list (the spec's scenario 8 shape, admin side). -/
theorem display_render_contract_witness :
    displayAdmins id none = .emptyState ∧
    displayAdmins id (some [sampleAdmin]) = .rows [adminRow id sampleAdmin] ∧
    (adminRow id sampleAdmin).badgeText = "Active" :=
  ⟨(display_render_contract id).1,
   ((display_render_contract id).2.2.2.2.1 [sampleAdmin] (by decide)).1,
   ((display_render_contract id).2.2.2.2.2.2.1 sampleAdmin).2.2.2.2.2.1.mpr rfl⟩

/-- Claim C8.  In the shell script's `logout`, whenever a refresh token is
present, both `ACCESS_TOKEN` and `REFRESH_TOKEN` are cleared to the empty
string regardless of the HTTP status `POST /logout` returns — 200 and any
failure status alike. -/
theorem logout_clears_tokens (st : ShellTokens) (status_code : Nat)
    (h : st.REFRESH_TOKEN ≠ "") :
    (logout st status_code).1.ACCESS_TOKEN = "" ∧
    (logout st status_code).1.REFRESH_TOKEN = "" := by
  unfold logout
  rw [if_neg (by simpa using h)]
  split <;> exact ⟨rfl, rfl⟩

/-- Witness for C8 at a failing status (500): the tokens are still
cleared. -/
theorem logout_clears_tokens_witness :
    (logout { ACCESS_TOKEN := "A", REFRESH_TOKEN := "R" } 500).1.ACCESS_TOKEN = "" ∧
    (logout { ACCESS_TOKEN := "A", REFRESH_TOKEN := "R" } 500).1.REFRESH_TOKEN = "" :=
  logout_clears_tokens { ACCESS_TOKEN := "A", REFRESH_TOKEN := "R" } 500 (by decide)

/-- Claim C9.  A non-public `apiRequest` with no truthy access token
returns `undefined` after the redirect; consequently `getAdmin` and
`getClient`, which read `.ok` on that result without a try/catch, throw,
while `loadAdmins` and `loadClients` catch the same TypeError and surface
the `'Network error'` notification. -/
theorem missing_token_throws_at_callers (fmt : DateFmt) (cookieString : String)
    (net : Net) (adminsBody : Option (List Admin)) (clientsBody : Option (List Client))
    (adminBody : Option Admin) (clientBody : Option Client) (adminId clientId : Nat)
    (htok : jsTruthy (getAccessToken cookieString) = false) :
    (∀ (endpoint : String) (options : ApiOptions), options.public = false →
      apiRequest cookieString net endpoint options =
        (.value none, [.redirect "/login"])) ∧
    loadAdmins fmt cookieString net adminsBody =
      [.redirect "/login", .notify "Network error" "danger"] ∧
    loadClients fmt cookieString net clientsBody =
      [.redirect "/login", .notify "Network error" "danger"] ∧
    (getAdmin cookieString net adminBody adminId).1 = .thrown ∧
    (getClient cookieString net clientBody clientId).1 = .thrown := by
  refine ⟨fun endpoint options hpub => apiRequest_noToken cookieString endpoint net
    options hpub htok, ?_, ?_, ?_, ?_⟩
  · rw [loadAdmins, apiRequest_noToken cookieString "/admins/" net {} rfl htok]
    rfl
  · rw [loadClients, apiRequest_noToken cookieString "/clients/" net {} rfl htok]
    rfl
  · rw [getAdmin, apiRequest_noToken cookieString ("/admins/" ++ toString adminId)
      net {} rfl htok]
  · rw [getClient, apiRequest_noToken cookieString ("/clients/" ++ toString clientId)
      net {} rfl htok]

/-- Witness for C9: an empty cookie jar. -/
theorem missing_token_throws_at_callers_witness :
    loadAdmins id "" { primary := .response ⟨200⟩, refresh := .response ⟨200⟩ }
      (some []) = [.redirect "/login", .notify "Network error" "danger"] ∧
    (getAdmin "" { primary := .response ⟨200⟩, refresh := .response ⟨200⟩ } none 7).1 =
      .thrown :=
  ⟨(missing_token_throws_at_callers id ""
      { primary := .response ⟨200⟩, refresh := .response ⟨200⟩ }
      (some []) (some []) none none 7 7 (by decide)).2.1,
   (missing_token_throws_at_callers id ""
      { primary := .response ⟨200⟩, refresh := .response ⟨200⟩ }
      (some []) (some []) none none 7 7 (by decide)).2.2.2.1⟩

end SimpleTickets
